import Mathlib

/-!
Verification of the text-normalization pipeline of `rs-spotify-status`
(`src/main.rs`): the Truncator (`trim_to_length`), the Feat-Suffix Remover
(`remove_feat`), the Markup Formatter (`format_for_printing`) and the
display-text composition done in `main`.

Modelling choices:
* A Rust `String` (always valid UTF-8) is represented as a `List Char`.
  Rust's `str::len` counts UTF-8 bytes, so we compute byte lengths
  explicitly (`charLenUtf8`, `strLen`).
* Rust byte-index slicing `&s[..i]` / `&s[i..]` panics when `i` is out of
  bounds or not on a character boundary; `boundary` converts a byte index
  to a character index exactly when the slice would succeed.  Fallible /
  panicking code is modelled with `Option` (`none` = panic).
* The external `regex` crate is modelled for the subset of syntax that the
  program's default pattern uses (literals, escapes, character classes,
  postfix `*`), with leftmost greedy matching; `html_escape::encode_text`
  is modelled by its documented escaping of the three characters `&`, `<`,
  `>`.
-/

/-- Number of bytes of the UTF-8 encoding of a character. -/
def charLenUtf8 (c : Char) : Nat :=
  if c.toNat < 0x80 then 1
  else if c.toNat < 0x800 then 2
  else if c.toNat < 0x10000 then 3
  else 4

/-- Rust `str::len`: the length of the string in UTF-8 bytes. -/
def strLen : List Char → Nat
  | [] => 0
  | c :: rest => charLenUtf8 c + strLen rest

/-- Byte index to character index: `boundary s i = some k` when byte
position `i` is a character boundary of `s` (the first `k` characters
occupy exactly `i` bytes); `none` when `i` is out of bounds or falls
inside a multi-byte character, in which case a Rust slice at `i` panics. -/
def boundary : List Char → Nat → Option Nat
  | _, 0 => some 0
  | [], _ + 1 => none
  | c :: rest, i + 1 =>
      if charLenUtf8 c ≤ i + 1 then
        (boundary rest (i + 1 - charLenUtf8 c)).map (fun k => k + 1)
      else none

/-- The literal ellipsis marker inserted by the Truncator. -/
def dots : List Char := ['.', '.', '.']

/-- `trim_to_length` from `src/main.rs` (the Truncator).  Byte-length
based, as in the source: `original_str_len` is `strLen input`, `diff` is
`strLen input - max_length + 3`, `mid_ish` is `strLen input / 2`; the
first `if` models the `usize` underflow of `mid_ish - diff / 2` (a panic)
and `boundary` models the two byte slices `&input[..mid_ish - diff / 2]`
and `&input[mid_ish + diff / 2..]`, which panic off a character boundary.
`none` is a panic. -/
def trim_to_length (input : List Char) (max_length : Nat) : Option (List Char) :=
  if strLen input ≤ max_length then some input
  else if strLen input / 2 < (strLen input - max_length + 3) / 2 then none
  else
    match boundary input (strLen input / 2 - (strLen input - max_length + 3) / 2),
          boundary input (strLen input / 2 + (strLen input - max_length + 3) / 2) with
    | some k1, some k2 => some (input.take k1 ++ dots ++ input.drop k2)
    | _, _ => none

/-- The spec's reference truncation algorithm, stated in its own words:
`diff = len(input) - max_length + 3`, `mid = len(input) / 2`, result =
characters `[0, mid - diff/2)` ++ `"..."` ++ characters `[mid + diff/2, end)`,
with `len` counting characters.  Used to compare the code against the
spec (claim C7). -/
def specTruncate (s : List Char) (m : Nat) : List Char :=
  if s.length ≤ m then s
  else
    s.take (s.length / 2 - (s.length - m + 3) / 2) ++ dots ++
      s.drop (s.length / 2 + (s.length - m + 3) / 2)

/-- `html_escape::encode_text` on one character: escapes `&`, `<`, `>`
(and nothing else — in particular quotes pass through). -/
def escapeChar (c : Char) : List Char :=
  if c = '&' then ['&', 'a', 'm', 'p', ';']
  else if c = '<' then ['&', 'l', 't', ';']
  else if c = '>' then ['&', 'g', 't', ';']
  else [c]

/-- `html_escape::encode_text` applied to a whole string. -/
def encode_text (s : List Char) : List Char := (s.map escapeChar).flatten

/-- Rust `char::is_whitespace` (the Unicode `White_Space` property). -/
def isRustWhitespace (c : Char) : Bool :=
  (0x9 ≤ c.toNat && c.toNat ≤ 0xD) || c.toNat = 0x20 || c.toNat = 0x85 ||
  c.toNat = 0xA0 || c.toNat = 0x1680 ||
  (0x2000 ≤ c.toNat && c.toNat ≤ 0x200A) || c.toNat = 0x2028 ||
  c.toNat = 0x2029 || c.toNat = 0x202F || c.toNat = 0x205F || c.toNat = 0x3000

/-- Rust `str::trim`: remove leading and trailing whitespace. -/
def trimChars (s : List Char) : List Char :=
  ((s.dropWhile isRustWhitespace).reverse.dropWhile isRustWhitespace).reverse

/-- `SPOTIFY_ICON_AWESOME_FONTS` from the source. -/
def SPOTIFY_ICON_AWESOME_FONTS : List Char := "&#xf1bc;".toList

/-- `DEFAULT_COLOR` from the source. -/
def DEFAULT_COLOR : List Char := "white".toList

/-- `DEFAULT_MAX_LENGTH` from the source. -/
def DEFAULT_MAX_LENGTH : Nat := 45

/-- `DEFAULT_REMOVE_FEAT` from the source. -/
def DEFAULT_REMOVE_FEAT : Bool := false

/-- `DEFAULT_FEAT_REGEX` from the source: the pattern `\(feat\. [\w* ]*\)`. -/
def DEFAULT_FEAT_REGEX : List Char := "\\(feat\\. [\\w* ]*\\)".toList

/-- The `Config` struct from the source (all fields optional, as after
TOML deserialization). -/
structure Config where
  icon : Option (List Char)
  color : Option (List Char)
  max_length : Option Nat
  remove_feat : Option Bool
  feat_regex : Option (List Char)

/-- `Config::default()` from the source. -/
def Config.default : Config :=
  { icon := some SPOTIFY_ICON_AWESOME_FONTS
    color := some DEFAULT_COLOR
    max_length := some DEFAULT_MAX_LENGTH
    remove_feat := some DEFAULT_REMOVE_FEAT
    feat_regex := some DEFAULT_FEAT_REGEX }

/-- An atom of a character class (or a single-character pattern item) in
the modelled subset of the `regex` crate's syntax. -/
inductive CItem where
  | ch (c : Char)
  | word
  | digit
  | space
  | any
deriving DecidableEq

/-- A pattern item: match one character from a set of atoms, or greedily
match zero or more (`*`). -/
inductive RItem where
  | one (atoms : List CItem)
  | star (atoms : List CItem)
deriving DecidableEq

/-- The `regex` crate's `\w` (restricted to ASCII word characters, which
is all that the program's inputs in the claims exercise). -/
def isWordCharModel (c : Char) : Bool := c.isAlpha || c.isDigit || c = '_'

/-- Does a character match a class atom? -/
def inCItem : CItem → Char → Bool
  | CItem.ch a, c => c = a
  | CItem.word, c => isWordCharModel c
  | CItem.digit, c => c.isDigit
  | CItem.space, c => isRustWhitespace c
  | CItem.any, c => c ≠ '\n'

/-- Does a character match any atom of a class? -/
def inAtoms (atoms : List CItem) (c : Char) : Bool :=
  atoms.any (fun a => inCItem a c)

/-- Punctuation that may be escaped with a backslash in a pattern. -/
def escapableLits : List Char :=
  ['\\', '.', '+', '*', '?', '(', ')', '|', '[', ']', '^', '$', '-', '/']

/-- Meaning of an escape sequence `\c`; `none` for an unrecognized escape
(a compilation error in the `regex` crate). -/
def classEscape (c : Char) : Option CItem :=
  if c = 'w' then some CItem.word
  else if c = 'd' then some CItem.digit
  else if c = 's' then some CItem.space
  else if c = 'n' then some (CItem.ch '\n')
  else if c = 't' then some (CItem.ch '\t')
  else if escapableLits.contains c then some (CItem.ch c)
  else none

/-- Parse the atoms of a character class, after the opening `[`, up to
the closing `]`; returns the atoms and the rest of the pattern, or `none`
for an unclosed class or a bad escape. -/
def parseClassItems : List Char → Option (List CItem × List Char)
  | [] => none
  | ']' :: rest => some ([], rest)
  | '\\' :: [] => none
  | '\\' :: c :: rest =>
      match classEscape c, parseClassItems rest with
      | some item, some (items, r) => some (item :: items, r)
      | _, _ => none
  | c :: rest =>
      match parseClassItems rest with
      | some (items, r) => some (CItem.ch c :: items, r)
      | none => none

/-- Metacharacters that the modelled subset does not accept bare. -/
def metaChars : List Char := ['(', ')', '[', ']', '*', '+', '?', '|', '^', '$']

/-- Pattern parser (fuel-indexed; each step consumes at least one input
character, so `length + 1` fuel always suffices).  Produces the sequence
of items, handling escapes, classes `[...]`, `.`, literals and a postfix
`*` on any atom; `none` is a compilation error. -/
def parseItemsF : Nat → List Char → Option (List RItem)
  | 0, _ => none
  | _ + 1, [] => some []
  | _ + 1, '\\' :: [] => none
  | fuel + 1, '\\' :: c :: rest =>
      match classEscape c with
      | some item =>
          match rest with
          | '*' :: rest2 =>
              (parseItemsF fuel rest2).map (fun items => RItem.star [item] :: items)
          | _ =>
              (parseItemsF fuel rest).map (fun items => RItem.one [item] :: items)
      | none => none
  | fuel + 1, '[' :: rest =>
      match parseClassItems rest with
      | some (atoms, r) =>
          if atoms.isEmpty then none
          else
            match r with
            | '*' :: r2 =>
                (parseItemsF fuel r2).map (fun items => RItem.star atoms :: items)
            | _ =>
                (parseItemsF fuel r).map (fun items => RItem.one atoms :: items)
      | none => none
  | fuel + 1, '.' :: rest =>
      match rest with
      | '*' :: rest2 =>
          (parseItemsF fuel rest2).map (fun items => RItem.star [CItem.any] :: items)
      | _ =>
          (parseItemsF fuel rest).map (fun items => RItem.one [CItem.any] :: items)
  | fuel + 1, c :: rest =>
      if metaChars.contains c then none
      else
        match rest with
        | '*' :: rest2 =>
            (parseItemsF fuel rest2).map (fun items => RItem.star [CItem.ch c] :: items)
        | _ =>
            (parseItemsF fuel rest).map (fun items => RItem.one [CItem.ch c] :: items)

/-- Modelled from the spec: `Regex::new` of the external `regex` crate
("compile `feat_regex` … as a pattern matcher"), for the subset of regex
syntax used by the program's default pattern; `none` models a
pattern-compilation failure. -/
def compileRegex (pattern : List Char) : Option (List RItem) :=
  parseItemsF (pattern.length + 1) pattern

/-- Greedy `*` over a class: consume as many matching characters as
possible, backtracking to the continuation `k` on failure. -/
def starTry (cls : Char → Bool) (k : List Char → Option (List Char)) :
    List Char → Option (List Char)
  | [] => k []
  | c :: s =>
      if cls c then
        match starTry cls k s with
        | some r => some r
        | none => k (c :: s)
      else k (c :: s)

/-- Match a pattern at the start of the input, returning the remainder of
the input after the match (leftmost-first, greedy `*`). -/
def matchSeq : List RItem → List Char → Option (List Char)
  | [], s => some s
  | RItem.one _ :: _, [] => none
  | RItem.one atoms :: ps, c :: s =>
      if inAtoms atoms c then matchSeq ps s else none
  | RItem.star atoms :: ps, s =>
      starTry (inAtoms atoms) (fun t => matchSeq ps t) s

/-- `Regex::replace_all` with the empty replacement, fuel-indexed: scan
left to right, deleting each leftmost non-overlapping match (advancing
one character past an empty match).  Every step strictly shrinks the
input, so `length + 1` fuel always suffices. -/
def replaceAllF : Nat → List RItem → List Char → List Char
  | 0, _, _ => []
  | _ + 1, _, [] => []
  | fuel + 1, pat, c :: rest =>
      match matchSeq pat (c :: rest) with
      | some r =>
          if r.length < rest.length + 1 then replaceAllF fuel pat r
          else c :: replaceAllF fuel pat rest
      | none => c :: replaceAllF fuel pat rest

/-- `Regex::replace_all` with the empty replacement. -/
def replaceAllGo (pat : List RItem) (s : List Char) : List Char :=
  replaceAllF (s.length + 1) pat s

/-- `remove_feat` from `src/main.rs` (the Feat-Suffix Remover).  `none`
models the `unwrap` panic on a non-compilable pattern. -/
def remove_feat (title : List Char) (config : Config) : Option (List Char) :=
  if !(config.remove_feat.getD false) then some title
  else
    match compileRegex (config.feat_regex.getD DEFAULT_FEAT_REGEX) with
    | none => none
    | some re => some (trimChars (replaceAllGo re title))

/-- The literal markup text before the color value. -/
def spanPre : List Char := "<span color=\"".toList

/-- The literal markup text between the color value and the icon. -/
def spanMid : List Char := "\">".toList

/-- The literal markup text closing the span. -/
def spanEnd : List Char := "</span>".toList

/-- `format_for_printing` from `src/main.rs` (the Markup Formatter):
resolve `icon`, `color`, `max_length` with their defaults, truncate,
escape, and compose `<span color="{color}">{icon} {text}</span>`.
`none` propagates a truncation panic. -/
def format_for_printing (config : Config) (display_str : List Char) : Option (List Char) :=
  match trim_to_length display_str (config.max_length.getD DEFAULT_MAX_LENGTH) with
  | none => none
  | some sized =>
      some (spanPre ++ config.color.getD DEFAULT_COLOR ++ spanMid ++
        config.icon.getD SPOTIFY_ICON_AWESOME_FONTS ++ [' '] ++
        encode_text sized ++ spanEnd)

/-- The display-text composition done in `main` (`src/main.rs`):
`title` is the spotify title passed through `remove_feat`, and the
composed text is `format!("{title} (by {})", artists[0])`; `none` models
a `remove_feat` panic or the index panic on an empty artist list. -/
def composeDisplay (config : Config) (title_from_spotify : List Char)
    (artists : List (List Char)) : Option (List Char) :=
  match remove_feat title_from_spotify config, artists with
  | some title, a :: _ => some (title ++ " (by ".toList ++ a ++ [')'])
  | _, _ => none

/-- The end-to-end example configuration: `remove_feat = true`, all other
fields default. -/
def cfgRemoveFeat : Config := { Config.default with remove_feat := some true }

/-- The compiled form of the default pattern in the model. -/
def defaultFeatRE : List RItem :=
  [RItem.one [CItem.ch '('], RItem.one [CItem.ch 'f'], RItem.one [CItem.ch 'e'],
   RItem.one [CItem.ch 'a'], RItem.one [CItem.ch 't'], RItem.one [CItem.ch '.'],
   RItem.one [CItem.ch ' '],
   RItem.star [CItem.word, CItem.ch '*', CItem.ch ' '],
   RItem.one [CItem.ch ')']]

/-- Number of occurrences of `pat` as a (possibly overlapping) substring
of `s`: the number of positions at which `pat` starts. -/
def countOcc (pat s : List Char) : Nat :=
  ((List.range (s.length + 1)).filter
    (fun i => (s.drop i).take pat.length = pat)).length

/-- A character is a single UTF-8 byte exactly when its code is below `0x80`. -/
theorem charLenUtf8_eq_one {c : Char} (h : c.toNat < 0x80) : charLenUtf8 c = 1 := by
  unfold charLenUtf8
  rw [if_pos h]

/-- For single-byte-encoded (ASCII) strings the byte length is the
character count. -/
theorem strLen_ascii (s : List Char) (h : ∀ c ∈ s, c.toNat < 0x80) :
    strLen s = s.length := by
  induction s with
  | nil => rfl
  | cons c cs ih =>
    have hc := charLenUtf8_eq_one (h c (List.mem_cons_self c cs))
    simp [strLen, hc, ih (fun d hd => h d (List.mem_cons_of_mem c hd))]
    omega

/-- For single-byte-encoded strings every position up to the length is a
character boundary, and byte indices coincide with character indices. -/
theorem boundary_ascii (s : List Char) (h : ∀ c ∈ s, c.toNat < 0x80) :
    ∀ i, i ≤ s.length → boundary s i = some i := by
  induction s with
  | nil =>
    intro i hi
    have : i = 0 := Nat.le_zero.mp hi
    subst this
    rfl
  | cons c cs ih =>
    intro i hi
    cases i with
    | zero => rfl
    | succ j =>
      have hc := charLenUtf8_eq_one (h c (List.mem_cons_self c cs))
      have hj : j ≤ cs.length := by simpa using hi
      simp [boundary, hc, ih (fun d hd => h d (List.mem_cons_of_mem c hd)) j hj]

/-- On single-byte-encoded input strictly longer than the budget (with
`max_length ≥ 3`), `trim_to_length` succeeds and returns
`take (mid - diff/2) ++ "..." ++ drop (mid + diff/2)` with `diff` and
`mid` as in the source. -/
theorem trim_ascii_overlength_eq (s : List Char) (m : Nat)
    (ha : ∀ c ∈ s, c.toNat < 0x80) (hm : 3 ≤ m) (hl : m < s.length) :
    trim_to_length s m =
      some (s.take (s.length / 2 - (s.length - m + 3) / 2) ++ dots ++
            s.drop (s.length / 2 + (s.length - m + 3) / 2)) := by
  have hs := strLen_ascii s ha
  unfold trim_to_length
  rw [hs]
  rw [if_neg (by omega : ¬ (s.length ≤ m))]
  rw [if_neg (by omega : ¬ (s.length / 2 < (s.length - m + 3) / 2))]
  rw [boundary_ascii s ha _ (by omega), boundary_ascii s ha _ (by omega)]

/-- Claim C1, counterexample: for input of six `a`s and `max_length = 4`
(where `diff = 5` is odd) the output has length 5, not 4; for input of
four `a`s and `max_length = 3` the output is exactly `"..."`, with empty
content on both sides of the marker; and for input of six dots and
`max_length = 5` the output contains the marker `...` three times, not
exactly once. -/
theorem trim_budget_and_marker_cex :
    (trim_to_length (List.replicate 6 'a') 4).map List.length = some 5 ∧
    trim_to_length (List.replicate 4 'a') 3 = some dots ∧
    (trim_to_length (List.replicate 6 '.') 5 = some (List.replicate 5 '.') ∧
      countOcc dots (List.replicate 5 '.') = 3) := by decide

/-- Claim C1, amended: for every single-byte-encoded input strictly
longer than `max_length`, with `max_length ≥ 5`, the output is
`prefix ++ "..." ++ suffix` with non-empty content on both sides of the
inserted marker, and its length is exactly `max_length` when
`diff = len - max_length + 3` is even and `max_length + 1` when `diff`
is odd. -/
theorem trim_overlength_shape (s : List Char) (m : Nat)
    (ha : ∀ c ∈ s, c.toNat < 0x80) (hm : 5 ≤ m) (hl : m < s.length) :
    trim_to_length s m =
      some (s.take (s.length / 2 - (s.length - m + 3) / 2) ++ dots ++
            s.drop (s.length / 2 + (s.length - m + 3) / 2)) ∧
    s.take (s.length / 2 - (s.length - m + 3) / 2) ≠ [] ∧
    s.drop (s.length / 2 + (s.length - m + 3) / 2) ≠ [] ∧
    (s.take (s.length / 2 - (s.length - m + 3) / 2) ++ dots ++
     s.drop (s.length / 2 + (s.length - m + 3) / 2)).length =
      (if (s.length - m + 3) % 2 = 0 then m else m + 1) := by
  refine ⟨trim_ascii_overlength_eq s m ha (by omega) hl, ?_, ?_, ?_⟩
  · apply List.ne_nil_of_length_pos
    rw [List.length_take]
    omega
  · apply List.ne_nil_of_length_pos
    rw [List.length_drop]
    omega
  · simp [List.length_append, List.length_take, List.length_drop, dots]
    split_ifs <;> omega

/-- Witness for C1's amended theorem at `"abcdefgh"`, `max_length = 5`
(`diff = 6` even): the output is `"a...h"`. -/
theorem trim_overlength_shape_witness :
    (∀ c ∈ "abcdefgh".toList, c.toNat < 0x80) ∧
    trim_to_length ("abcdefgh".toList) 5 = some ("a...h".toList) := by
  refine ⟨by decide, ?_⟩
  have h := trim_overlength_shape ("abcdefgh".toList) 5 (by decide) (by decide) (by decide)
  rw [h.1]
  decide

/-- Claim C2, counterexample: on six copies of the two-byte character
`é` with `max_length = 5` the byte positions fall inside a character, so
`trim_to_length` panics (it would split a multi-byte character); and with
`max_length = 0` on `"ab"` the subtraction `mid_ish - diff / 2`
underflows — there is no clamping or special-casing. -/
theorem trim_panics_cex :
    trim_to_length (List.replicate 6 (Char.ofNat 233)) 5 = none ∧
    trim_to_length ['a', 'b'] 0 = none := by decide

/-- Claim C2, amended: `trim_to_length` can panic — it slices by byte
index, so it panics when a slice boundary falls inside a multi-byte
character, and `max_length < 3` can underflow; but for single-byte-encoded
input with `max_length ≥ 3` it never panics. -/
theorem trim_ascii_no_panic (s : List Char) (m : Nat)
    (ha : ∀ c ∈ s, c.toNat < 0x80) (hm : 3 ≤ m) :
    (trim_to_length s m).isSome = true := by
  by_cases h : strLen s ≤ m
  · unfold trim_to_length
    rw [if_pos h]
    rfl
  · have hs := strLen_ascii s ha
    rw [trim_ascii_overlength_eq s m ha hm (by omega)]
    rfl

/-- Witness for C2's amended theorem at `"abcd"`, `max_length = 3`. -/
theorem trim_ascii_no_panic_witness :
    (∀ c ∈ "abcd".toList, c.toNat < 0x80) ∧
    (trim_to_length ("abcd".toList) 3).isSome = true :=
  ⟨by decide, trim_ascii_no_panic ("abcd".toList) 3 (by decide) (by decide)⟩

/-- Claim C3, counterexample: a double quote is markup-significant per
the claim, but `html_escape::encode_text` leaves it untouched, so a
display string consisting of one quote appears verbatim (unescaped) in
the Markup Formatter's output. -/
theorem format_quote_unescaped_cex :
    encode_text ['"'] = ['"'] ∧
    format_for_printing Config.default ['"'] =
      some (spanPre ++ DEFAULT_COLOR ++ spanMid ++ SPOTIFY_ICON_AWESOME_FONTS ++
        [' '] ++ ['"'] ++ spanEnd) := by decide

/-- Claim C3, amended: whenever truncation succeeds, the Markup Formatter
returns exactly `<span color="{color}">{icon} {escaped_text}</span>` with
the configured (or default) color and icon inserted verbatim, where
`escaped_text` is the truncated display string escaped for `&`, `<`, `>`
only — angle brackets never appear in it, but quotes pass through
unescaped. -/
theorem format_for_printing_spec (config : Config) (display_str sized : List Char)
    (h : trim_to_length display_str (config.max_length.getD DEFAULT_MAX_LENGTH) = some sized) :
    format_for_printing config display_str =
      some (spanPre ++ config.color.getD DEFAULT_COLOR ++ spanMid ++
        config.icon.getD SPOTIFY_ICON_AWESOME_FONTS ++ [' '] ++
        encode_text sized ++ spanEnd) ∧
    ∀ c ∈ encode_text sized, c ≠ '<' ∧ c ≠ '>' := by
  constructor
  · unfold format_for_printing
    rw [h]
  · intro c hc
    unfold encode_text at hc
    rw [List.mem_flatten] at hc
    obtain ⟨l, hl, hcl⟩ := hc
    rw [List.mem_map] at hl
    obtain ⟨d, _, rfl⟩ := hl
    unfold escapeChar at hcl
    split_ifs at hcl with h1 h2 h3
    · fin_cases hcl <;> exact ⟨by decide, by decide⟩
    · fin_cases hcl <;> exact ⟨by decide, by decide⟩
    · fin_cases hcl <;> exact ⟨by decide, by decide⟩
    · rw [List.mem_singleton] at hcl
      subst hcl
      exact ⟨h2, h3⟩

/-- Witness for C3's amended theorem at the default configuration and the
display string `"hi"`. -/
theorem format_for_printing_spec_witness :
    trim_to_length ("hi".toList) (Config.default.max_length.getD DEFAULT_MAX_LENGTH) =
      some ("hi".toList) ∧
    (format_for_printing Config.default ("hi".toList) =
      some (spanPre ++ Config.default.color.getD DEFAULT_COLOR ++ spanMid ++
        Config.default.icon.getD SPOTIFY_ICON_AWESOME_FONTS ++ [' '] ++
        encode_text ("hi".toList) ++ spanEnd) ∧
     ∀ c ∈ encode_text ("hi".toList), c ≠ '<' ∧ c ≠ '>') :=
  ⟨by decide, format_for_printing_spec Config.default ("hi".toList) ("hi".toList) (by decide)⟩

/-- Claim C4: with `remove_feat = true` and a pattern that compiles, the
Feat-Suffix Remover deletes every leftmost non-overlapping match of the
pattern and trims surrounding whitespace; with the default pattern it
maps `"1x1 (feat. Nova Twins)"` to `"1x1"` and `"Song  (feat. X) "` to
`"Song"`. -/
theorem remove_feat_replaces_and_trims :
    (∀ (title : List Char) (config : Config) (re : List RItem),
        config.remove_feat.getD false = true →
        compileRegex (config.feat_regex.getD DEFAULT_FEAT_REGEX) = some re →
        remove_feat title config = some (trimChars (replaceAllGo re title))) ∧
    remove_feat ("1x1 (feat. Nova Twins)".toList) cfgRemoveFeat = some ("1x1".toList) ∧
    remove_feat ("Song  (feat. X) ".toList) cfgRemoveFeat = some ("Song".toList) := by
  refine ⟨?_, by decide, by decide⟩
  intro title config re h1 h2
  unfold remove_feat
  rw [h1, h2]
  rfl

/-- Witness for C4's general part: the default pattern compiles to
`defaultFeatRE` and `remove_feat` returns the trimmed replacement. -/
theorem remove_feat_replaces_and_trims_witness :
    cfgRemoveFeat.remove_feat.getD false = true ∧
    compileRegex (cfgRemoveFeat.feat_regex.getD DEFAULT_FEAT_REGEX) = some defaultFeatRE ∧
    remove_feat ("q (feat. W)".toList) cfgRemoveFeat =
      some (trimChars (replaceAllGo defaultFeatRE ("q (feat. W)".toList))) :=
  ⟨by decide, by decide,
    remove_feat_replaces_and_trims.1 ("q (feat. W)".toList) cfgRemoveFeat defaultFeatRE
      (by decide) (by decide)⟩

/-- Claim C5: when `remove_feat` is false or absent the Feat-Suffix
Remover returns the title unchanged, whatever `feat_regex` holds — the
pattern is never compiled. -/
theorem remove_feat_identity_when_disabled (title : List Char) (config : Config)
    (h : config.remove_feat.getD false = false) :
    remove_feat title config = some title := by
  unfold remove_feat
  rw [h]
  rfl

/-- Witness for C5 at a configuration whose `feat_regex` is the
non-compilable pattern `"("` and whose `remove_feat` is absent. -/
theorem remove_feat_identity_when_disabled_witness :
    remove_feat ("a (feat. b)".toList)
      { icon := none, color := none, max_length := none,
        remove_feat := none, feat_regex := some ("(".toList) } =
      some ("a (feat. b)".toList) :=
  remove_feat_identity_when_disabled ("a (feat. b)".toList) _ (by decide)

/-- Claim C6, counterexample: `"éé"` has 2 characters, at most the budget
3, yet the Truncator does not return it unchanged — it returns `"..."`,
because the code measures the 4-byte UTF-8 length, not characters. -/
theorem trim_identity_char_budget_cex :
    (List.replicate 2 (Char.ofNat 233)).length ≤ 3 ∧
    trim_to_length (List.replicate 2 (Char.ofNat 233)) 3 = some dots := by decide

/-- Claim C6, amended: the Truncator is the identity for every input
whose UTF-8 byte length (the code's `input.len()`) is at most
`max_length`; for single-byte-encoded input this is the character
count. -/
theorem trim_identity_below_byte_budget (s : List Char) (m : Nat)
    (h : strLen s ≤ m) : trim_to_length s m = some s := by
  unfold trim_to_length
  rw [if_pos h]

/-- Witness for C6's amended theorem at `"hello"`, `max_length = 30`. -/
theorem trim_identity_below_byte_budget_witness :
    strLen ("hello".toList) ≤ 30 ∧
    trim_to_length ("hello".toList) 30 = some ("hello".toList) :=
  ⟨by decide, trim_identity_below_byte_budget ("hello".toList) 30 (by decide)⟩

/-- Claim C7, counterexample: on six copies of the two-byte character `é`
with `max_length = 5` the code panics (its byte-indexed slice falls
inside a character), while the spec's character-indexed reference
algorithm returns `"é...é"`. -/
theorem trim_vs_spec_algorithm_cex :
    trim_to_length (List.replicate 6 (Char.ofNat 233)) 5 = none ∧
    specTruncate (List.replicate 6 (Char.ofNat 233)) 5 =
      Char.ofNat 233 :: dots ++ [Char.ofNat 233] := by decide

/-- Claim C7, amended: for single-byte-encoded input (where bytes and
characters coincide) and `max_length ≥ 3`, `trim_to_length` computes
exactly the spec's reference algorithm. -/
theorem trim_matches_spec_algorithm_ascii (s : List Char) (m : Nat)
    (ha : ∀ c ∈ s, c.toNat < 0x80) (hm : 3 ≤ m) :
    trim_to_length s m = some (specTruncate s m) := by
  have hs := strLen_ascii s ha
  by_cases h : s.length ≤ m
  · unfold trim_to_length specTruncate
    rw [hs, if_pos h, if_pos h]
  · rw [trim_ascii_overlength_eq s m ha hm (by omega)]
    unfold specTruncate
    rw [if_neg h]

/-- Witness for C7's amended theorem at `"abcdefgh"`, `max_length = 5`. -/
theorem trim_matches_spec_algorithm_ascii_witness :
    trim_to_length ("abcdefgh".toList) 5 = some (specTruncate ("abcdefgh".toList) 5) :=
  trim_matches_spec_algorithm_ascii ("abcdefgh".toList) 5 (by decide) (by decide)

/-- Claim C8: with `remove_feat = true` and a non-compilable pattern the
Feat-Suffix Remover panics (`Regex::new(..).unwrap()`), aborting the
operation instead of skipping removal. -/
theorem remove_feat_invalid_pattern_panics (title : List Char) (config : Config)
    (h1 : config.remove_feat.getD false = true)
    (h2 : compileRegex (config.feat_regex.getD DEFAULT_FEAT_REGEX) = none) :
    remove_feat title config = none := by
  unfold remove_feat
  rw [h1, h2]
  rfl

/-- Witness for C8 at the non-compilable pattern `"("` (an unclosed
group). -/
theorem remove_feat_invalid_pattern_panics_witness :
    remove_feat ("x".toList)
      { icon := none, color := none, max_length := none,
        remove_feat := some true, feat_regex := some ("(".toList) } = none :=
  remove_feat_invalid_pattern_panics ("x".toList) _ (by decide) (by decide)

/-- Claim C9: the composed pre-format display text is
`"{title'} (by {first_artist})"`, with the Feat-Suffix Remover applied to
the title before composing; in particular with `remove_feat = true`,
title `"1x1 (feat. Nova Twins)"` and artists `["Tame Impala"]` it is
`"1x1 (by Tame Impala)"`. -/
theorem composeDisplay_spec :
    (∀ (config : Config) (t title a : List Char) (rest : List (List Char)),
        remove_feat t config = some title →
        composeDisplay config t (a :: rest) =
          some (title ++ " (by ".toList ++ a ++ [')'])) ∧
    composeDisplay cfgRemoveFeat ("1x1 (feat. Nova Twins)".toList)
      [("Tame Impala".toList)] = some ("1x1 (by Tame Impala)".toList) := by
  refine ⟨?_, by decide⟩
  intro config t title a rest h
  unfold composeDisplay
  rw [h]

/-- Witness for C9's general part at the default configuration. -/
theorem composeDisplay_spec_witness :
    remove_feat ("abc".toList) Config.default = some ("abc".toList) ∧
    composeDisplay Config.default ("abc".toList) [("xyz".toList)] =
      some ("abc".toList ++ " (by ".toList ++ "xyz".toList ++ [')']) :=
  ⟨by decide,
    composeDisplay_spec.1 Config.default ("abc".toList) ("abc".toList) ("xyz".toList) []
      (by decide)⟩

/-- Claim C10: for single-byte-encoded input strictly longer than
`max_length` with `max_length ≥ 3`, the output length is exactly
`max_length` when `diff = len - max_length + 3` is even and exactly
`max_length + 1` when `diff` is odd. -/
theorem trim_overlength_exact_length (s : List Char) (m : Nat)
    (ha : ∀ c ∈ s, c.toNat < 0x80) (hm : 3 ≤ m) (hl : m < s.length) :
    (trim_to_length s m).map List.length =
      some (if (s.length - m + 3) % 2 = 0 then m else m + 1) := by
  rw [trim_ascii_overlength_eq s m ha hm hl]
  simp only [Option.map_some', List.length_append, List.length_take,
    List.length_drop, dots, List.length_cons, List.length_nil, Option.some.injEq]
  split_ifs <;> omega

/-- Witness for C10 at `"abcdefghi"` (length 9), `max_length = 5`
(`diff = 7` odd, so the output length is 6). -/
theorem trim_overlength_exact_length_witness :
    (trim_to_length ("abcdefghi".toList) 5).map List.length = some 6 := by
  have h := trim_overlength_exact_length ("abcdefghi".toList) 5 (by decide) (by decide) (by decide)
  rw [h]
  decide
